import Mathlib

/-
  Verification of the wallpaper cursor and crop-state manager
  (src/src/app_state.rs of iynaix/wallpapers-ui).

  The state type `Wallpapers` and the operations `prev_wall`, `next_wall`,
  `remove`, `set_from_filename`, `get_geometry`, `set_geometry` are embedded
  from the Rust source. Panics (`expect`, `unwrap_or_else(panic)`, slice
  indexing, `Vec::remove` bounds check) are modelled by returning
  `Except.error s`, where `s` is the in-memory state at the point of the
  panic: the Rust methods mutate `self` field by field, so the state at a
  panic can differ from the state at entry.

  The collaborator types `WallInfo` (ImageRecord), `Geometry`, `AspectRatio`,
  the record store `WallpapersCsv` and the helper `filename` live in the
  external `wallpaper_ui` crate and are not part of src/; they are modelled
  from the spec where an operation of this core depends on their behavior.
-/

/-- Modelled from the spec: `Geometry` is an axis-aligned rectangle
(origin plus width and height) in source-image pixel coordinates; an
immutable value type. The concrete type lives in the external
`wallpaper_ui` crate. -/
structure Geometry where
  x : Nat
  y : Nat
  w : Nat
  h : Nat
deriving DecidableEq, Repr

/-- Modelled from the spec: `AspectRatio` is an ordered pair of positive
integers (width, height); equality is structural. The concrete type lives
in the external `wallpaper_ui` crate. -/
structure AspectRatio where
  rw : Nat
  rh : Nat
deriving DecidableEq, Repr

/-- Modelled from the spec: `WallInfo` (the ImageRecord) carries a mapping
from aspect-ratio key to a previously chosen geometry, together with image
metadata (dimensions, detected regions of interest) consumed by the
geometry collaborator; it is an opaque cloneable value. The per-ratio
mapping is modelled as an association list and the image metadata as an
opaque token; the geometry-collaborator fallback is passed separately as a
function of the metadata and the ratio. The concrete type lives in the
external `wallpaper_ui` crate. -/
structure WallInfo where
  geometries : List (AspectRatio × Geometry)
  metadata : Nat
deriving DecidableEq, Repr

/-- Lookup in a per-ratio association list: first entry for the given
ratio, if any. -/
def lookupGeom : List (AspectRatio × Geometry) → AspectRatio → Option Geometry
  | [], _ => none
  | (r', g) :: rest, r => if r' = r then some g else lookupGeom rest r

/-- Modelled from the spec: `ImageRecord.get_geometry` returns the geometry
previously stored for this (image, ratio) pair, or a value derived by the
geometry collaborator (`fb`, a pure function of the image metadata and the
ratio) if none is stored yet. -/
def WallInfo.get_geometry (fb : Nat → AspectRatio → Geometry)
    (info : WallInfo) (r : AspectRatio) : Geometry :=
  match lookupGeom info.geometries r with
  | some g => g
  | none => fb info.metadata r

/-- Update of an association list at a key: replaces the first binding of
the key, or appends a new binding. -/
def setAssoc : List (AspectRatio × Geometry) → AspectRatio → Geometry →
    List (AspectRatio × Geometry)
  | [], r, g => [(r, g)]
  | (r', g') :: rest, r, g =>
    if r' = r then (r, g) :: rest else (r', g') :: setAssoc rest r g

/-- Modelled from the spec: `ImageRecord.set_geometry` stores the geometry
for the given ratio in the record (in memory only). -/
def WallInfo.set_geometry (info : WallInfo) (r : AspectRatio) (g : Geometry) : WallInfo :=
  { info with geometries := setAssoc info.geometries r g }

/-- Modelled from the spec: the record store (`WallpapersCsv`) is a keyed
persistence layer mapping an image filename to its saved crop record. -/
structure WallpapersCsv where
  entries : List (String × WallInfo)
deriving DecidableEq, Repr

/-- Keyed lookup in the record store: `get(handle, filename) -> ImageRecord option`. -/
def WallpapersCsv.get (csv : WallpapersCsv) (fname : String) : Option WallInfo :=
  go csv.entries
where
  go : List (String × WallInfo) → Option WallInfo
    | [] => none
    | (k, v) :: rest => if k = fname then some v else go rest

/-- Modelled from the spec: `filename` extracts the file name component of
a path (the part after the last separator). Paths are modelled as strings. -/
def filename (p : String) : String :=
  String.mk (go p.data [])
where
  /-- Walks the characters, restarting the accumulated component at each
  separator; the accumulator holds the current component reversed. -/
  go : List Char → List Char → List Char
    | [], acc => acc.reverse
    | c :: rest, acc => if c = '/' then go rest [] else go rest (c :: acc)

instance {ε α : Type} [DecidableEq ε] [DecidableEq α] :
    DecidableEq (Except ε α) := fun a b =>
  match a, b with
  | Except.error e, Except.error e' =>
    if h : e = e' then isTrue (by rw [h]) else isFalse (by intro hc; cases hc; exact h rfl)
  | Except.ok v, Except.ok v' =>
    if h : v = v' then isTrue (by rw [h]) else isFalse (by intro hc; cases hc; exact h rfl)
  | Except.error _, Except.ok _ => isFalse (by intro hc; cases hc)
  | Except.ok _, Except.error _ => isFalse (by intro hc; cases hc)

/-- The `PreviewMode` enum from src/src/app_state.rs: a flat selector of
which geometry overlay is shown; `Candidate` stores the last mouseover
geometry, if any. -/
inductive PreviewMode where
  | Source
  | Default
  | Start
  | Center
  | End
  | Manual
  | None
  | Candidate (g : Option Geometry)
deriving DecidableEq, Repr

/-- The `UiState` struct from src/src/app_state.rs. -/
structure UiState where
  show_filelist : Bool
  show_faces : Bool
  preview_mode : PreviewMode
deriving DecidableEq, Repr

/-- `UiState::default()`: both booleans take `bool::default()` (false) and
`preview_mode` is `PreviewMode::Source`. -/
def UiState.default : UiState :=
  { show_filelist := false
    show_faces := false
    preview_mode := PreviewMode.Source }

/-- `UiState::reset()`: sets `show_filelist` and `show_faces` to false and
`preview_mode` to `PreviewMode::Source`. -/
def UiState.reset (s : UiState) : UiState :=
  { s with
    show_filelist := false
    show_faces := false
    preview_mode := PreviewMode.Source }

/-- The `Wallpapers` struct from src/src/app_state.rs: the ordered file
list, the unmodified record (`source`), the possibly edited record
(`current`), the cursor position and the active aspect ratio. -/
structure Wallpapers where
  files : List String
  source : WallInfo
  current : WallInfo
  index : Nat
  ratio : AspectRatio
deriving DecidableEq, Repr

/-- The reload tail shared verbatim by `prev_wall` and `next_wall` in
src/src/app_state.rs: index `files` at the already-updated `index` (an
out-of-bounds index panics), look the filename up in the record store
(`expect` panics when absent) and write the loaded record to both `source`
and `current`. A panic is `Except.error` carrying the state at the point
of the panic. -/
def Wallpapers.reload (csv : WallpapersCsv) (w1 : Wallpapers) :
    Except Wallpapers Wallpapers :=
  match w1.files.get? w1.index with
  | none => Except.error w1
  | some f =>
    match csv.get (filename f) with
    | none => Except.error w1
    | some loaded => Except.ok { w1 with source := loaded, current := loaded }

/-- `Wallpapers::prev_wall()`: sets `index` to `files.len() - 1` when it is
0 and to `index - 1` otherwise, then reloads `source` and `current` from
the record store keyed by the filename of `files[index]`. An empty file
list panics while computing `files.len() - 1`, before any field is
written. -/
def Wallpapers.prev_wall (csv : WallpapersCsv) (w : Wallpapers) :
    Except Wallpapers Wallpapers :=
  if w.files.length = 0 then
    Except.error w
  else
    Wallpapers.reload csv
      { w with index := if w.index = 0 then w.files.length - 1 else w.index - 1 }

/-- `Wallpapers::next_wall()`: sets `index` to 0 when it is
`files.len() - 1` and to `index + 1` otherwise, then reloads `source` and
`current` from the record store keyed by the filename of `files[index]`.
An empty file list panics while computing `files.len() - 1`, before any
field is written. -/
def Wallpapers.next_wall (csv : WallpapersCsv) (w : Wallpapers) :
    Except Wallpapers Wallpapers :=
  if w.files.length = 0 then
    Except.error w
  else
    Wallpapers.reload csv
      { w with index := if w.index = w.files.length - 1 then 0 else w.index + 1 }

/-- `Wallpapers::remove()`: remembers `current_index = index`, calls
`next_wall()`, removes the entry at `current_index` from `files`
(`Vec::remove` panics when the index is out of bounds), then sets
`index = current_index`. -/
def Wallpapers.remove (csv : WallpapersCsv) (w : Wallpapers) :
    Except Wallpapers Wallpapers :=
  match w.next_wall csv with
  | Except.error s => Except.error s
  | Except.ok w1 =>
    if w.index < w1.files.length then
      Except.ok { w1 with files := w1.files.eraseIdx w.index, index := w.index }
    else
      Except.error w1

/-- `Iterator::position` over the file list: index of the first entry whose
filename component equals the argument. -/
def positionOfFilename (fname : String) : List String → Option Nat
  | [] => none
  | f :: rest =>
    if filename f = fname then some 0
    else (positionOfFilename fname rest).map (· + 1)

/-- `Wallpapers::set_from_filename(fname)`: loads the record for `fname`
from the store (panics when absent, before any field is written), writes
`source` and `current`, then sets `index` to the position of the first
entry of `files` whose filename equals `fname` (panics when there is none,
after `source` and `current` were already written). -/
def Wallpapers.set_from_filename (csv : WallpapersCsv) (fname : String)
    (w : Wallpapers) : Except Wallpapers Wallpapers :=
  match csv.get fname with
  | none => Except.error w
  | some loaded =>
    match positionOfFilename fname w.files with
    | none => Except.error { w with source := loaded, current := loaded }
    | some i => Except.ok { w with source := loaded, current := loaded, index := i }

/-- `Wallpapers::get_geometry()`: reads the geometry of `current` for the
active ratio (`fb` is the geometry-collaborator fallback inside the
record accessor). -/
def Wallpapers.get_geometry (fb : Nat → AspectRatio → Geometry)
    (w : Wallpapers) : Geometry :=
  WallInfo.get_geometry fb w.current w.ratio

/-- `Wallpapers::set_geometry(g)`: writes the geometry of `current` for the
active ratio; `source` and the record store are untouched. -/
def Wallpapers.set_geometry (w : Wallpapers) (g : Geometry) : Wallpapers :=
  { w with current := w.current.set_geometry w.ratio g }

/-- Iterated `next_wall`: the k-fold composition used to state the cyclic
navigation property. -/
def nextN (csv : WallpapersCsv) : Nat → Wallpapers → Except Wallpapers Wallpapers
  | 0, w => Except.ok w
  | k + 1, w =>
    match w.next_wall csv with
    | Except.error s => Except.error s
    | Except.ok w1 => nextN csv k w1

/-! Concrete fixtures used by witnesses, counterexamples and failing-input
evaluations. -/

/-- A concrete geometry. -/
def gA : Geometry := ⟨0, 0, 100, 50⟩

/-- Another concrete geometry, distinct from `gA`. -/
def gB : Geometry := ⟨5, 5, 60, 30⟩

/-- A concrete aspect ratio. -/
def r169 : AspectRatio := ⟨16, 9⟩

/-- The default aspect ratio of the `Wallpapers` struct (1440:2560). -/
def rdef : AspectRatio := ⟨1440, 2560⟩

/-- Record stored for `a.jpg`. -/
def recA : WallInfo := ⟨[(r169, gA)], 10⟩

/-- Record stored for `b.jpg`. -/
def recB : WallInfo := ⟨[(r169, gB)], 20⟩

/-- Record stored for `c.jpg`. -/
def recC : WallInfo := ⟨[], 30⟩

/-- Record store holding `a.jpg` and `b.jpg`. -/
def csvAB : WallpapersCsv := ⟨[("a.jpg", recA), ("b.jpg", recB)]⟩

/-- Record store holding `a.jpg`, `b.jpg` and `c.jpg`. -/
def csvABC : WallpapersCsv := ⟨[("a.jpg", recA), ("b.jpg", recB), ("c.jpg", recC)]⟩

/-- Record store holding `a.jpg` and `x.jpg` (note: `x.jpg` is not in any
file list below). -/
def csvX : WallpapersCsv := ⟨[("a.jpg", recA), ("x.jpg", recB)]⟩

/-- Two-file cursor positioned at the first entry. -/
def wFirstAB : Wallpapers := ⟨["a.jpg", "b.jpg"], recA, recA, 0, rdef⟩

/-- Two-file cursor positioned at the last entry. -/
def wLast : Wallpapers := ⟨["a.jpg", "b.jpg"], recB, recB, 1, rdef⟩

/-- The state `remove` produces from `wLast`: one file left but the cursor
index still 1, which is out of bounds. -/
def wBug : Wallpapers := ⟨["a.jpg"], recA, recA, 1, rdef⟩

/-- Three-file cursor positioned at the last entry. -/
def wLast3 : Wallpapers := ⟨["a.jpg", "b.jpg", "c.jpg"], recC, recC, 2, rdef⟩

/-- The state `remove` produces from `wLast3`: two files left but the
cursor index still 2, which is out of bounds. -/
def wBug3 : Wallpapers := ⟨["a.jpg", "b.jpg"], recA, recA, 2, rdef⟩

/-- One-file cursor at its only entry. -/
def wA : Wallpapers := ⟨["a.jpg"], recA, recA, 0, rdef⟩

/-- The state at the panic point when `set_from_filename` is given
`x.jpg`, which has a record in `csvX` but no entry in `wA.files`: `source`
and `current` already hold the loaded record. -/
def wPartial : Wallpapers := ⟨["a.jpg"], recB, recB, 0, rdef⟩

/-! Characterization lemmas for the operations. -/

theorem Wallpapers.reload_ok {csv : WallpapersCsv} {w1 w' : Wallpapers}
    (h : Wallpapers.reload csv w1 = Except.ok w') :
    w'.files = w1.files ∧ w'.index = w1.index ∧ w'.ratio = w1.ratio ∧
    w'.source = w'.current ∧
    ∃ f, w1.files.get? w1.index = some f ∧ csv.get (filename f) = some w'.current := by
  unfold Wallpapers.reload at h
  split at h
  · exact absurd h (by simp)
  · rename_i f hf
    split at h
    · exact absurd h (by simp)
    · rename_i loaded hg
      injection h with h
      subst h
      exact ⟨rfl, rfl, rfl, rfl, f, hf, hg⟩

theorem Wallpapers.reload_error {csv : WallpapersCsv} {w1 s : Wallpapers}
    (h : Wallpapers.reload csv w1 = Except.error s) : s = w1 := by
  unfold Wallpapers.reload at h
  split at h
  · injection h with h; exact h.symm
  · split at h
    · injection h with h; exact h.symm
    · exact absurd h (by simp)

theorem Wallpapers.next_wall_ok {csv : WallpapersCsv} {w w' : Wallpapers}
    (h : w.next_wall csv = Except.ok w') :
    w'.files = w.files ∧ w'.ratio = w.ratio ∧ w'.source = w'.current ∧
    w'.index = (if w.index = w.files.length - 1 then 0 else w.index + 1) ∧
    w'.index < w.files.length ∧
    ∃ f, w.files.get? w'.index = some f ∧ csv.get (filename f) = some w'.current := by
  unfold Wallpapers.next_wall at h
  by_cases h0 : w.files.length = 0
  · rw [if_pos h0] at h; exact absurd h (by simp)
  · rw [if_neg h0] at h
    obtain ⟨hfiles, hidx, hratio, hsc, f, hf, hg⟩ := Wallpapers.reload_ok h
    have hlt : w'.index < w.files.length := by
      have := List.get?_eq_some.mp (hidx ▸ hf)
      exact this.1
    exact ⟨hfiles, hratio, hsc, hidx, hlt, f, hidx ▸ hf, hg⟩

theorem Wallpapers.prev_wall_ok {csv : WallpapersCsv} {w w' : Wallpapers}
    (h : w.prev_wall csv = Except.ok w') :
    w'.files = w.files ∧ w'.ratio = w.ratio ∧ w'.source = w'.current ∧
    w'.index = (if w.index = 0 then w.files.length - 1 else w.index - 1) ∧
    w'.index < w.files.length ∧
    ∃ f, w.files.get? w'.index = some f ∧ csv.get (filename f) = some w'.current := by
  unfold Wallpapers.prev_wall at h
  by_cases h0 : w.files.length = 0
  · rw [if_pos h0] at h; exact absurd h (by simp)
  · rw [if_neg h0] at h
    obtain ⟨hfiles, hidx, hratio, hsc, f, hf, hg⟩ := Wallpapers.reload_ok h
    have hlt : w'.index < w.files.length := by
      have := List.get?_eq_some.mp (hidx ▸ hf)
      exact this.1
    exact ⟨hfiles, hratio, hsc, hidx, hlt, f, hidx ▸ hf, hg⟩

theorem positionOfFilename_some {fname : String} :
    ∀ {l : List String} {i : Nat}, positionOfFilename fname l = some i →
    ∃ f, l.get? i = some f ∧ filename f = fname := by
  intro l
  induction l with
  | nil => intro i h; simp [positionOfFilename] at h
  | cons f rest ih =>
    intro i h
    unfold positionOfFilename at h
    by_cases hf : filename f = fname
    · rw [if_pos hf] at h
      injection h with h
      subst h
      exact ⟨f, rfl, hf⟩
    · rw [if_neg hf] at h
      rcases hrest : positionOfFilename fname rest with _ | j <;> rw [hrest] at h
      · simp at h
      · simp only [Option.map_some'] at h
        injection h with h
        subst h
        obtain ⟨g, hg, hgf⟩ := ih hrest
        exact ⟨g, by simpa using hg, hgf⟩

theorem Wallpapers.set_from_filename_ok {csv : WallpapersCsv} {fname : String}
    {w w' : Wallpapers} (h : w.set_from_filename csv fname = Except.ok w') :
    w'.files = w.files ∧ w'.ratio = w.ratio ∧ w'.source = w'.current ∧
    csv.get fname = some w'.current ∧
    ∃ f, w.files.get? w'.index = some f ∧ filename f = fname := by
  unfold Wallpapers.set_from_filename at h
  split at h
  · exact absurd h (by simp)
  · rename_i loaded hg
    split at h
    · exact absurd h (by simp)
    · rename_i i hp
      injection h with h
      subst h
      obtain ⟨f, hf, hff⟩ := positionOfFilename_some hp
      exact ⟨rfl, rfl, rfl, hg, f, hf, hff⟩

theorem Wallpapers.next_wall_ok_mod {csv : WallpapersCsv} {w w' : Wallpapers}
    (hlt : w.index < w.files.length) (h : w.next_wall csv = Except.ok w') :
    w'.files = w.files ∧ w'.index = (w.index + 1) % w.files.length := by
  obtain ⟨hfiles, -, -, hidx, -, -⟩ := Wallpapers.next_wall_ok h
  refine ⟨hfiles, ?_⟩
  rw [hidx]
  by_cases hE : w.index = w.files.length - 1
  · rw [if_pos hE]
    have hn : w.index + 1 = w.files.length := by omega
    rw [hn, Nat.mod_self]
  · rw [if_neg hE]
    have hn : w.index + 1 < w.files.length := by omega
    rw [Nat.mod_eq_of_lt hn]

theorem nextN_ok {csv : WallpapersCsv} :
    ∀ {k : Nat} {w w' : Wallpapers}, w.index < w.files.length →
    nextN csv k w = Except.ok w' →
    w'.files = w.files ∧ w'.index = (w.index + k) % w.files.length := by
  intro k
  induction k with
  | zero =>
    intro w w' hlt h
    injection h with h
    subst h
    exact ⟨rfl, by rw [Nat.add_zero, Nat.mod_eq_of_lt hlt]⟩
  | succ k ih =>
    intro w w' hlt h
    unfold nextN at h
    split at h
    · exact absurd h (by simp)
    · rename_i w1 h1
      obtain ⟨hfiles, hidx⟩ := Wallpapers.next_wall_ok_mod hlt h1
      have hlt1 : w1.index < w1.files.length := by
        rw [hfiles, hidx]
        exact Nat.mod_lt _ (by omega)
      obtain ⟨hfiles2, hidx2⟩ := ih hlt1 h
      refine ⟨by rw [hfiles2, hfiles], ?_⟩
      rw [hidx2, hidx, hfiles]
      rw [Nat.mod_add_mod]
      have hc : w.index + 1 + k = w.index + (k + 1) := by omega
      rw [hc]

theorem lookupGeom_setAssoc_self (l : List (AspectRatio × Geometry))
    (r : AspectRatio) (g : Geometry) :
    lookupGeom (setAssoc l r g) r = some g := by
  induction l with
  | nil => simp [setAssoc, lookupGeom]
  | cons p rest ih =>
    obtain ⟨r', g'⟩ := p
    unfold setAssoc
    by_cases h : r' = r
    · rw [if_pos h]
      simp [lookupGeom]
    · rw [if_neg h]
      unfold lookupGeom
      rw [if_neg h]
      exact ih

theorem lookupGeom_setAssoc_ne (l : List (AspectRatio × Geometry))
    (r : AspectRatio) (g : Geometry) (r2 : AspectRatio) (h : r2 ≠ r) :
    lookupGeom (setAssoc l r g) r2 = lookupGeom l r2 := by
  induction l with
  | nil =>
    unfold setAssoc lookupGeom
    rw [if_neg (fun hc => h hc.symm)]
    rfl
  | cons p rest ih =>
    obtain ⟨r', g'⟩ := p
    unfold setAssoc
    by_cases hr : r' = r
    · rw [if_pos hr]
      unfold lookupGeom
      rw [if_neg (fun hc => h hc.symm), if_neg (fun hc => h (hr ▸ hc).symm)]
    · rw [if_neg hr]
      unfold lookupGeom
      by_cases hr2 : r' = r2
      · rw [if_pos hr2, if_pos hr2]
      · rw [if_neg hr2, if_neg hr2]
        exact ih

/-- Claim C1: the claim requires `remove()` on a list of length N > 1 to
leave the cursor positioned at the entry that was next (mod N), with the
cursor at position 0 when the removed entry was the last. Evaluating the
code on a two-file cursor at the last entry shows the records are indeed
loaded for the wrapped-to entry `a.jpg`, but the cursor index stays at 1,
which is out of bounds of the shortened one-file list instead of being
position 0: the code restores `index = current_index` unconditionally. -/
theorem c1_remove_wraparound_failing_input :
    wLast.remove csvAB = Except.ok wBug ∧
    wBug.files = ["a.jpg"] ∧ wBug.source = recA ∧ wBug.current = recA ∧
    wBug.index = 1 ∧ ¬ wBug.index < wBug.files.length :=
  ⟨by decide, rfl, rfl, rfl, rfl, by decide⟩

/-- Claim C2: the claim requires every cursor operation to preserve the
invariant `index < files.len()` on non-empty files. Evaluating `remove` on
a three-file cursor at the last entry yields a non-empty two-file list
with `index = 2`, violating the invariant the code itself documents as
always holding. -/
theorem c2_remove_breaks_index_invariant :
    wLast3.remove csvABC = Except.ok wBug3 ∧
    wBug3.files ≠ [] ∧ ¬ wBug3.index < wBug3.files.length := by
  refine ⟨by decide, by decide, by decide⟩

/-- Claim C3: after any successful navigation call (`prev_wall`,
`next_wall`, or `set_from_filename`), `source` equals `current` and both
equal the record-store value keyed by the filename of `files[index]` at
the new index. -/
theorem c3_navigation_resets_edits (csv : WallpapersCsv) (w w' : Wallpapers)
    (h : w.prev_wall csv = Except.ok w' ∨ w.next_wall csv = Except.ok w' ∨
      ∃ fname, w.set_from_filename csv fname = Except.ok w') :
    w'.source = w'.current ∧
    ∃ f, w'.files.get? w'.index = some f ∧ csv.get (filename f) = some w'.current := by
  rcases h with h | h | ⟨fname, h⟩
  · obtain ⟨hfiles, -, hsc, -, -, f, hf, hg⟩ := Wallpapers.prev_wall_ok h
    exact ⟨hsc, f, by rw [hfiles]; exact hf, hg⟩
  · obtain ⟨hfiles, -, hsc, -, -, f, hf, hg⟩ := Wallpapers.next_wall_ok h
    exact ⟨hsc, f, by rw [hfiles]; exact hf, hg⟩
  · obtain ⟨hfiles, -, hsc, hget, f, hf, hff⟩ := Wallpapers.set_from_filename_ok h
    exact ⟨hsc, f, by rw [hfiles]; exact hf, by rw [hff]; exact hget⟩

/-- Witness for C3: `next_wall` from the last of two files lands on the
first file with both records freshly loaded from the store. -/
theorem c3_witness :
    wFirstAB.source = wFirstAB.current ∧
    ∃ f, wFirstAB.files.get? wFirstAB.index = some f ∧
      csvAB.get (filename f) = some wFirstAB.current :=
  c3_navigation_resets_edits csvAB wLast wFirstAB (Or.inr (Or.inl (by decide)))

/-- Claim C4: on non-empty files, `prev_wall` at index 0 wraps to
`files.len() - 1` and otherwise decrements, and `next_wall` at
`files.len() - 1` wraps to 0 and otherwise increments. -/
theorem c4_prev_next_index_formula (csv : WallpapersCsv) (w wp wn : Wallpapers)
    (hne : w.files ≠ [])
    (hp : w.prev_wall csv = Except.ok wp)
    (hn : w.next_wall csv = Except.ok wn) :
    wp.index = (if w.index = 0 then w.files.length - 1 else w.index - 1) ∧
    wn.index = (if w.index = w.files.length - 1 then 0 else w.index + 1) :=
  have _hne := hne
  ⟨(Wallpapers.prev_wall_ok hp).2.2.2.1, (Wallpapers.next_wall_ok hn).2.2.2.1⟩

/-- Witness for C4: both moves from the last of two files. -/
theorem c4_witness :
    (wFirstAB.index = if wLast.index = 0 then wLast.files.length - 1 else wLast.index - 1) ∧
    (wFirstAB.index = if wLast.index = wLast.files.length - 1 then 0 else wLast.index + 1) :=
  c4_prev_next_index_formula csvAB wLast wFirstAB wFirstAB (by decide) (by decide) (by decide)

/-- Claim C5: from any valid index on non-empty files, applying
`next_wall` exactly `files.len()` times (successfully) returns the index
to its starting value. -/
theorem c5_next_wall_cycle (csv : WallpapersCsv) (w w' : Wallpapers)
    (hlt : w.index < w.files.length)
    (h : nextN csv w.files.length w = Except.ok w') :
    w'.index = w.index := by
  obtain ⟨-, hidx⟩ := nextN_ok hlt h
  rw [hidx, Nat.add_mod_right, Nat.mod_eq_of_lt hlt]

/-- Witness for C5: two `next_wall` steps on a two-file cursor return to
the starting state. -/
theorem c5_witness : wLast.index = wLast.index :=
  c5_next_wall_cycle csvAB wLast wLast (by decide) (by decide)

/-- Claim C6: from any valid index on non-empty files, `prev_wall`
followed by `next_wall` restores the index, and so does `next_wall`
followed by `prev_wall`. -/
theorem c6_prev_next_roundtrip (csv : WallpapersCsv) (w w1 w2 w3 w4 : Wallpapers)
    (hlt : w.index < w.files.length)
    (hp : w.prev_wall csv = Except.ok w1)
    (hn1 : w1.next_wall csv = Except.ok w2)
    (hn : w.next_wall csv = Except.ok w3)
    (hp1 : w3.prev_wall csv = Except.ok w4) :
    w2.index = w.index ∧ w4.index = w.index := by
  constructor
  · obtain ⟨hfilesa, -, -, hidxa, -, -⟩ := Wallpapers.prev_wall_ok hp
    obtain ⟨-, -, -, hidxb, -, -⟩ := Wallpapers.next_wall_ok hn1
    rw [hfilesa] at hidxb
    split_ifs at hidxa hidxb <;> omega
  · obtain ⟨hfilesa, -, -, hidxa, -, -⟩ := Wallpapers.next_wall_ok hn
    obtain ⟨-, -, -, hidxb, -, -⟩ := Wallpapers.prev_wall_ok hp1
    rw [hfilesa] at hidxb
    split_ifs at hidxa hidxb <;> omega

/-- Witness for C6: both round trips on a two-file cursor at the last
entry. -/
theorem c6_witness : wLast.index = wLast.index ∧ wLast.index = wLast.index :=
  c6_prev_next_roundtrip csvAB wLast wFirstAB wLast wFirstAB wLast
    (by decide) (by decide) (by decide) (by decide) (by decide)

/-- Claim C7: under the spec contract for the ImageRecord accessors,
`set_geometry g` followed by `get_geometry` at the unchanged ratio returns
`g`, and `set_geometry` at one ratio does not change what `get_geometry`
returns at a different ratio. -/
theorem c7_geometry_roundtrip_and_frame (fb : Nat → AspectRatio → Geometry)
    (w : Wallpapers) (g : Geometry) (r2 : AspectRatio) (hne : r2 ≠ w.ratio) :
    (w.set_geometry g).get_geometry fb = g ∧
    Wallpapers.get_geometry fb { w.set_geometry g with ratio := r2 } =
      Wallpapers.get_geometry fb { w with ratio := r2 } := by
  constructor
  · simp [Wallpapers.get_geometry, Wallpapers.set_geometry, WallInfo.get_geometry,
      WallInfo.set_geometry, lookupGeom_setAssoc_self]
  · simp only [Wallpapers.get_geometry, Wallpapers.set_geometry, WallInfo.get_geometry,
      WallInfo.set_geometry]
    rw [lookupGeom_setAssoc_ne _ _ _ _ hne]

/-- Witness for C7: storing a geometry for the default ratio and reading
it back, with the 16:9 slot unaffected. -/
theorem c7_witness :
    (wA.set_geometry gB).get_geometry (fun _ _ => gA) = gB ∧
    Wallpapers.get_geometry (fun _ _ => gA) { wA.set_geometry gB with ratio := r169 } =
      Wallpapers.get_geometry (fun _ _ => gA) { wA with ratio := r169 } :=
  c7_geometry_roundtrip_and_frame (fun _ _ => gA) wA gB r169 (by decide)

/-- Claim C8: `reset()` always yields `show_filelist = false`,
`show_faces = false`, `preview_mode = Source`, and the construction-time
default state equals this reset state. -/
theorem c8_reset_yields_defaults (s : UiState) :
    s.reset = { show_filelist := false, show_faces := false,
                preview_mode := PreviewMode.Source } ∧
    UiState.default = s.reset :=
  ⟨rfl, rfl⟩

/-- Counterexample for C9: `set_from_filename` given `x.jpg`, which has a
record in the store but no entry in the file list, panics only after
having already overwritten `source` and `current`, so the state at the
point of failure is observably modified, contrary to the claim. -/
theorem c9_counterexample :
    wA.set_from_filename csvX "x.jpg" = Except.error wPartial ∧
    wPartial.current ≠ wA.current ∧ wPartial.source ≠ wA.source := by
  refine ⟨by decide, by decide, by decide⟩

/-- Claim C9 (amended): when `set_from_filename` fails, `files`, `index`
and `ratio` are unchanged at the point of failure, and when the failure is
a missing record (the lookup happens before any write) the whole state is
unchanged; only `source` and `current` can have been modified, namely when
a record exists but no list entry matches the filename. -/
theorem c9_failure_frame (csv : WallpapersCsv) (fname : String) (w s : Wallpapers)
    (h : w.set_from_filename csv fname = Except.error s) :
    s.files = w.files ∧ s.index = w.index ∧ s.ratio = w.ratio ∧
    (csv.get fname = none → s = w) := by
  unfold Wallpapers.set_from_filename at h
  split at h
  · injection h with h
    subst h
    exact ⟨rfl, rfl, rfl, fun _ => rfl⟩
  · rename_i loaded hg
    split at h
    · injection h with h
      subst h
      exact ⟨rfl, rfl, rfl, fun hc => by rw [hg] at hc; exact Option.noConfusion hc⟩
    · exact absurd h (by simp)

/-- Witness for C9 (amended): the partial-failure state of the
counterexample keeps `files`, `index` and `ratio` intact. -/
theorem c9_amended_witness :
    wPartial.files = wA.files ∧ wPartial.index = wA.index ∧
    wPartial.ratio = wA.ratio ∧ (csvX.get "x.jpg" = none → wPartial = wA) :=
  c9_failure_frame csvX "x.jpg" wA wPartial (by decide)

/-- Claim C10: successful `prev_wall` and `next_wall` calls leave the file
list and the ratio unchanged; only `index`, `source` and `current` may
differ. -/
theorem c10_navigation_frame (csv : WallpapersCsv) (w w' : Wallpapers)
    (h : w.prev_wall csv = Except.ok w' ∨ w.next_wall csv = Except.ok w') :
    w'.files = w.files ∧ w'.ratio = w.ratio := by
  rcases h with h | h
  · obtain ⟨hfiles, hratio, -⟩ := Wallpapers.prev_wall_ok h
    exact ⟨hfiles, hratio⟩
  · obtain ⟨hfiles, hratio, -⟩ := Wallpapers.next_wall_ok h
    exact ⟨hfiles, hratio⟩

/-- Witness for C10: `prev_wall` on the two-file cursor. -/
theorem c10_witness : wFirstAB.files = wLast.files ∧ wFirstAB.ratio = wLast.ratio :=
  c10_navigation_frame csvAB wLast wFirstAB (Or.inl (by decide))
